import Mathlib

/-!
Verification of the CVSS calculator (`cvssCalculator.py`).

Strings from the Python source are modelled as `List Char`; the Python
`dict` built by `parse_vector` is modelled as the insertion-ordered
association list of parsed `key:value` segments, with lookup returning the
value of the last occurrence of a key (Python dict semantics: a later
assignment to the same key overwrites the earlier one).  Python `float`
arithmetic is modelled exactly over `ℚ`; every numeric literal of the
source is an exact decimal, so the rational value tracks the ideal
real-number semantics of the formulas.
-/

namespace Cvss

/-- Error kinds raised by the calculator, one constructor per distinct
`raise` site of the source.  `invalidMetric` carries the payload of the
`KeyError` that `cvss31_base` intercepts (the missing dictionary key),
`missingMetrics` the list interpolated into the v4.0 message,
`unsupportedVersion` the version token. -/
inductive CvssErr where
  | malformedVector
  | missingVersion
  | invalidMetric (name : List Char)
  | missingMetrics (keys : List (List Char))
  | unsupportedVersion (ver : List Char)
  | providerUnavailable
  deriving DecidableEq, Repr

/-- Python whitespace characters stripped by `str.strip()` (ASCII range). -/
def isPySpace (c : Char) : Bool :=
  c = ' ' || c = '\t' || c = '\n' || c = '\r' || c = '\x0b' || c = '\x0c'

/-- Model of Python `str.strip()`: drop whitespace from both ends. -/
def pyStrip (s : List Char) : List Char :=
  ((s.dropWhile isPySpace).reverse.dropWhile isPySpace).reverse

/-- Model of Python `str.startswith(pre)`. -/
def pyStartsWith : List Char → List Char → Bool
  | [], _ => true
  | _ :: _, [] => false
  | p :: ps, c :: cs => p = c && pyStartsWith ps cs

/-- Characters matched by the version class `[0-9.]` of the regex
`^CVSS:(?P<ver>[0-9.]+)\/`. -/
def isVerChar (c : Char) : Bool :=
  ('0' ≤ c && c ≤ '9') || c = '.'

/-- The metric map produced by `parse_vector`: the parsed `key:value`
segments in order of appearance. -/
abbrev Metrics : Type := List (List Char × List Char)

/-- Dictionary lookup on the segment list: the value of the LAST
occurrence of the key, as in a Python dict built by repeated
assignment (`metrics[k] = v`). -/
def mget (m : Metrics) (k : List Char) : Option (List Char) :=
  (m.reverse.find? (fun p => p.1 == k)).map (fun p => p.2)

/-- One loop iteration of `parse_vector`: a segment with no `:` is
skipped; otherwise it is split on the FIRST `:` into key and value. -/
def splitSeg (p : List Char) : Option (List Char × List Char) :=
  if p.contains ':' then
    some (p.takeWhile (fun c => c != ':'), (p.dropWhile (fun c => c != ':')).tail)
  else
    none

/-- The literal `"CVSS:"`. -/
def kCVSS : List Char := ['C', 'V', 'S', 'S', ':']

/-- Model of `parse_vector`: strip, check the `CVSS:` beginning, extract
the version as the run of `[0-9.]` characters that must be terminated by
`/`, then split the rest on `/` into `key:value` segments. -/
def parse_vector (s0 : List Char) : Except CvssErr (List Char × Metrics) :=
  let s := pyStrip s0
  if pyStartsWith kCVSS s then
    let rest := s.drop 5
    let run := rest.takeWhile isVerChar
    if run = [] ∨ (rest.dropWhile isVerChar).head? ≠ some '/' then
      Except.error CvssErr.missingVersion
    else
      let parts := (s.splitOn '/').drop 1
      Except.ok (run, parts.filterMap splitSeg)
  else
    Except.error CvssErr.malformedVector

/-! Weight tables of the v3.1 engine (module-level constants of the source). -/

def V31_AV : List (List Char × ℚ) :=
  [(['N'], 0.85), (['A'], 0.62), (['L'], 0.55), (['P'], 0.20)]

def V31_AC : List (List Char × ℚ) :=
  [(['L'], 0.77), (['H'], 0.44)]

def V31_PR_U : List (List Char × ℚ) :=
  [(['N'], 0.85), (['L'], 0.62), (['H'], 0.27)]

def V31_PR_C : List (List Char × ℚ) :=
  [(['N'], 0.85), (['L'], 0.68), (['H'], 0.50)]

def V31_UI : List (List Char × ℚ) :=
  [(['N'], 0.85), (['R'], 0.62)]

def V31_CIA : List (List Char × ℚ) :=
  [(['H'], 0.56), (['L'], 0.22), (['N'], 0.00)]

/-- Lookup of a value token in a weight table (`TABLE[value]`). -/
def tableGet (tab : List (List Char × ℚ)) (v : List Char) : Option ℚ :=
  (tab.find? (fun p => p.1 == v)).map (fun p => p.2)

/-- Combined lookup `TABLE[metrics[key]]` as the source performs it inside
the `try` block: a missing key raises `KeyError(key)`, an unrecognized
value raises `KeyError(value)`; both are re-raised as the `ValueError`
modelled by `CvssErr.invalidMetric`. -/
def getW (tab : List (List Char × ℚ)) (m : Metrics) (k : List Char) :
    Except CvssErr ℚ :=
  match mget m k with
  | none => Except.error (CvssErr.invalidMetric k)
  | some v =>
    match tableGet tab v with
    | none => Except.error (CvssErr.invalidMetric v)
    | some w => Except.ok w

/-- Model of `roundup_1_dec`: round up to one decimal place. -/
def roundup_1_dec (x : ℚ) : ℚ :=
  (Int.ceil (x * 10) : ℚ) / 10

/-! Metric-key literals. -/

def kAV : List Char := ['A', 'V']
def kAC : List Char := ['A', 'C']
def kPR : List Char := ['P', 'R']
def kUI : List Char := ['U', 'I']
def kS : List Char := ['S']
def kC : List Char := ['C']
def kI : List Char := ['I']
def kA : List Char := ['A']

/-- Model of `cvss31_base`, exception handling made explicit.  The
lookups happen in source order (AV, AC, S, PR, UI, C, I, A) and the first
`KeyError` wins; the PR table is chosen by comparing the scope value with
`"C"`, the impact and base branches by comparing it with `"U"`. -/
def cvss31_base (m : Metrics) : Except CvssErr ℚ :=
  match getW V31_AV m kAV with
  | Except.error e => Except.error e
  | Except.ok av =>
    match getW V31_AC m kAC with
    | Except.error e => Except.error e
    | Except.ok ac =>
      match mget m kS with
      | none => Except.error (CvssErr.invalidMetric kS)
      | some scope =>
        match getW (if scope = ['C'] then V31_PR_C else V31_PR_U) m kPR with
        | Except.error e => Except.error e
        | Except.ok pr =>
          match getW V31_UI m kUI with
          | Except.error e => Except.error e
          | Except.ok ui =>
            match getW V31_CIA m kC with
            | Except.error e => Except.error e
            | Except.ok c =>
              match getW V31_CIA m kI with
              | Except.error e => Except.error e
              | Except.ok i =>
                match getW V31_CIA m kA with
                | Except.error e => Except.error e
                | Except.ok a =>
                  let iss := 1 - (1 - c) * (1 - i) * (1 - a)
                  let impact :=
                    if scope = ['U'] then 6.42 * iss
                    else 7.52 * (iss - 0.029) - 3.25 * (iss - 0.02) ^ 15
                  let expl := 8.22 * av * ac * pr * ui
                  let base :=
                    if impact ≤ 0 then 0
                    else if scope = ['U'] then min (impact + expl) 10
                    else min (1.08 * (impact + expl)) 10
                  Except.ok (roundup_1_dec base)

/-- The 11 required v4.0 Base metric keys, in canonical order. -/
def required40 : List (List Char) :=
  [['A','V'], ['A','C'], ['A','T'], ['P','R'], ['U','I'],
   ['V','C'], ['V','I'], ['V','A'], ['S','C'], ['S','I'], ['S','A']]

/-- The canonical v4.0 vector string rebuilt before delegation. -/
def canonical40 (m : Metrics) : List Char :=
  ['C','V','S','S',':','4','.','0','/'] ++
    (List.intercalate ['/']
      (required40.map (fun k => k ++ [ ':' ] ++ ((mget m k).getD []))))

/-- Model of `cvss40_base`.  The external provider (the `cvss` package)
is a parameter: `none` models a failing `from cvss import CVSS4`.  As in
the source, the import is attempted FIRST; only then are the required
keys validated, every absent one collected in canonical order. -/
def cvss40_base (provider : Option (List Char → ℚ)) (m : Metrics) :
    Except CvssErr ℚ :=
  match provider with
  | none => Except.error CvssErr.providerUnavailable
  | some f =>
    let missing := required40.filter (fun k => (mget m k).isNone)
    if missing = [] then Except.ok (f (canonical40 m))
    else Except.error (CvssErr.missingMetrics missing)

/-- The literal `"3.1"`. -/
def k31 : List Char := ['3', '.', '1']

/-- The literal `"4"`. -/
def k4 : List Char := ['4']

/-- Model of `compute_from_vector`: parse, then dispatch on the version. -/
def compute_from_vector (provider : Option (List Char → ℚ))
    (s : List Char) : Except CvssErr ℚ :=
  match parse_vector s with
  | Except.error e => Except.error e
  | Except.ok (ver, m) =>
    if pyStartsWith k31 ver then cvss31_base m
    else if pyStartsWith k4 ver then cvss40_base provider m
    else Except.error (CvssErr.unsupportedVersion ver)

/-- Decidable equality of results, for concrete checks. -/
instance {ε α : Type} [DecidableEq ε] [DecidableEq α] : DecidableEq (Except ε α) := fun a b =>
  match a, b with
  | Except.ok x, Except.ok y =>
    match decEq x y with
    | isTrue h => isTrue (h ▸ rfl)
    | isFalse h => isFalse (fun hh => h (Except.ok.inj hh))
  | Except.error x, Except.error y =>
    match decEq x y with
    | isTrue h => isTrue (h ▸ rfl)
    | isFalse h => isFalse (fun hh => h (Except.error.inj hh))
  | Except.ok _, Except.error _ => isFalse (fun hh => Except.noConfusion hh)
  | Except.error _, Except.ok _ => isFalse (fun hh => Except.noConfusion hh)

/-! Definitions written from the SPEC's words (section 4.2 of the spec and
the formulas quoted by the claims), to be compared with the source model. -/

/-- Spec formula, step 2: the Information-Security-Impact-Subscore. -/
def spec_iss (c i a : ℚ) : ℚ := 1 - (1 - c) * (1 - i) * (1 - a)

/-- Spec formula, step 3: Impact, `6.42*iss` when Scope is unchanged and
`7.52*(iss-0.029) - 3.25*(iss-0.02)^15` when changed. -/
def spec_impact (s : List Char) (iss : ℚ) : ℚ :=
  if s = ['U'] then 6.42 * iss
  else 7.52 * (iss - 0.029) - 3.25 * (iss - 0.02) ^ 15

/-- Spec formula, step 4: Exploitability. -/
def spec_exploitability (av ac pr ui : ℚ) : ℚ := 8.22 * av * ac * pr * ui

/-- Spec formula, step 6: the pre-round Base Score when impact is positive,
`min(impact + exploitability, 10.0)` for unchanged scope and
`min(1.08*(impact + exploitability), 10.0)` for changed scope. -/
def spec_preRoundBase (s : List Char) (impact expl : ℚ) : ℚ :=
  if s = ['U'] then min (impact + expl) 10
  else min (1.08 * (impact + expl)) 10

/-- The 8 required v3.1 metric keys. -/
def v31Required : List (List Char) := [kAV, kAC, kPR, kUI, kS, kC, kI, kA]

/-- The 7 v3.1 metric keys whose value is looked up in a weight table
(every required key except Scope, whose value only selects branches). -/
def v31Weighted : List (List Char) := [kAV, kAC, kPR, kUI, kC, kI, kA]

/-- The weight table the source consults for a given weighted key; for PR
it depends on the Scope value of the map. -/
def v31Table (m : Metrics) (k : List Char) : List (List Char × ℚ) :=
  if k = kAV then V31_AV
  else if k = kAC then V31_AC
  else if k = kPR then (if mget m kS = some ['C'] then V31_PR_C else V31_PR_U)
  else if k = kUI then V31_UI
  else V31_CIA

/-- A single weighted key passes validation: either absent (reported by
the presence check instead) or its value is in its weight table. -/
def valueOk (m : Metrics) (k : List Char) : Bool :=
  match mget m k with
  | none => true
  | some v => (tableGet (v31Table m k) v).isSome

/-- Full v3.1 validation condition: every required key present and every
weighted key's value recognized by its table. -/
def v31Valid (m : Metrics) : Bool :=
  v31Required.all (fun k => (mget m k).isSome) &&
    v31Weighted.all (fun k => valueOk m k)

/-- Case analysis for a combined lookup: success with a recognized value,
failure on an absent key (error names the key), or failure on an
unrecognized value (error names the value). -/
theorem getW_cases (tab : List (List Char × ℚ)) (m : Metrics) (k : List Char) :
    (∃ v w, mget m k = some v ∧ tableGet tab v = some w ∧
      getW tab m k = Except.ok w) ∨
    (mget m k = none ∧ getW tab m k = Except.error (CvssErr.invalidMetric k)) ∨
    (∃ v, mget m k = some v ∧ tableGet tab v = none ∧
      getW tab m k = Except.error (CvssErr.invalidMetric v)) := by
  rcases hm : mget m k with _ | v
  · exact Or.inr (Or.inl ⟨rfl, by simp only [getW, hm]⟩)
  · rcases ht : tableGet tab v with _ | w
    · exact Or.inr (Or.inr ⟨v, rfl, ht, by simp only [getW, hm, ht]⟩)
    · exact Or.inl ⟨v, w, rfl, ht, by simp only [getW, hm, ht]⟩

/-- Evaluation lemma: when every lookup succeeds, `cvss31_base` returns
the rounded-up value of the piecewise spec formula. -/
theorem cvss31_base_eval (m : Metrics) (s : List Char) (av ac pr ui c i a : ℚ)
    (hav : getW V31_AV m kAV = Except.ok av)
    (hac : getW V31_AC m kAC = Except.ok ac)
    (hs : mget m kS = some s)
    (hpr : getW (if s = ['C'] then V31_PR_C else V31_PR_U) m kPR = Except.ok pr)
    (hui : getW V31_UI m kUI = Except.ok ui)
    (hc : getW V31_CIA m kC = Except.ok c)
    (hi : getW V31_CIA m kI = Except.ok i)
    (ha : getW V31_CIA m kA = Except.ok a) :
    cvss31_base m = Except.ok (roundup_1_dec
      (if spec_impact s (spec_iss c i a) ≤ 0 then 0
       else spec_preRoundBase s (spec_impact s (spec_iss c i a))
              (spec_exploitability av ac pr ui))) := by
  simp only [cvss31_base, hav, hac, hs, hpr, hui, hc, hi, ha,
    spec_iss, spec_impact, spec_exploitability, spec_preRoundBase]

/-- Evaluation of the rounding function at a value whose ceiling is known. -/
theorem roundup_eq (x : ℚ) (n : ℤ) (h1 : (n : ℚ) - 1 < x * 10)
    (h2 : x * 10 ≤ (n : ℚ)) : roundup_1_dec x = (n : ℚ) / 10 := by
  unfold roundup_1_dec
  rw [Int.ceil_eq_iff.mpr ⟨h1, h2⟩]

theorem charCU : ('C' : Char) ≠ 'U' := by decide

/-- Dispatch shape of `compute_from_vector` after a successful parse. -/
theorem compute_dispatch (p : Option (List Char → ℚ)) (s ver : List Char)
    (m : Metrics) (hp : parse_vector s = Except.ok (ver, m)) :
    compute_from_vector p s =
      (if pyStartsWith k31 ver then cvss31_base m
       else if pyStartsWith k4 ver then cvss40_base p m
       else Except.error (CvssErr.unsupportedVersion ver)) := by
  simp only [compute_from_vector, hp]

/-- A successful combined lookup decomposes into the two dictionary hits. -/
theorem getW_ok_elim (tab : List (List Char × ℚ)) (m : Metrics)
    (k : List Char) (w : ℚ) (h : getW tab m k = Except.ok w) :
    ∃ v, mget m k = some v ∧ tableGet tab v = some w := by
  rcases getW_cases tab m k with ⟨v, w', hm, ht, hg⟩ | ⟨_, hg⟩ | ⟨v, _, _, hg⟩
  · rw [h] at hg
    exact ⟨v, hm, by rw [ht, Except.ok.inj hg]⟩
  · rw [h] at hg; cases hg
  · rw [h] at hg; cases hg

/-- Shared form of the zero-impact rule: a non-positive impact forces the
score `0.0` whatever the exploitability. -/
theorem cvss31_zero (m : Metrics) (s : List Char) (av ac pr ui c i a : ℚ)
    (hav : getW V31_AV m kAV = Except.ok av)
    (hac : getW V31_AC m kAC = Except.ok ac)
    (hs : mget m kS = some s)
    (hpr : getW (if s = ['C'] then V31_PR_C else V31_PR_U) m kPR = Except.ok pr)
    (hui : getW V31_UI m kUI = Except.ok ui)
    (hc : getW V31_CIA m kC = Except.ok c)
    (hi : getW V31_CIA m kI = Except.ok i)
    (ha : getW V31_CIA m kA = Except.ok a)
    (hz : spec_impact s (spec_iss c i a) ≤ 0) :
    cvss31_base m = Except.ok 0 := by
  rw [cvss31_base_eval m s av ac pr ui c i a hav hac hs hpr hui hc hi ha,
    if_pos hz]
  norm_num [roundup_1_dec]

/-- Every success of `cvss31_base` is the rounding of some pre-round base. -/
theorem cvss31_ok_shape (m : Metrics) (q : ℚ)
    (h : cvss31_base m = Except.ok q) : ∃ x, q = roundup_1_dec x := by
  rcases hgAV : getW V31_AV m kAV with e | av
  · simp only [cvss31_base, hgAV] at h; exact Except.noConfusion h
  rcases hgAC : getW V31_AC m kAC with e | ac
  · simp only [cvss31_base, hgAV, hgAC] at h; exact Except.noConfusion h
  rcases hgS : mget m kS with _ | s
  · simp only [cvss31_base, hgAV, hgAC, hgS] at h; exact Except.noConfusion h
  rcases hgPR : getW (if s = ['C'] then V31_PR_C else V31_PR_U) m kPR with e | pr
  · simp only [cvss31_base, hgAV, hgAC, hgS, hgPR] at h
    exact Except.noConfusion h
  rcases hgUI : getW V31_UI m kUI with e | ui
  · simp only [cvss31_base, hgAV, hgAC, hgS, hgPR, hgUI] at h
    exact Except.noConfusion h
  rcases hgC : getW V31_CIA m kC with e | c
  · simp only [cvss31_base, hgAV, hgAC, hgS, hgPR, hgUI, hgC] at h
    exact Except.noConfusion h
  rcases hgI : getW V31_CIA m kI with e | i
  · simp only [cvss31_base, hgAV, hgAC, hgS, hgPR, hgUI, hgC, hgI] at h
    exact Except.noConfusion h
  rcases hgA : getW V31_CIA m kA with e | a
  · simp only [cvss31_base, hgAV, hgAC, hgS, hgPR, hgUI, hgC, hgI, hgA] at h
    exact Except.noConfusion h
  rw [cvss31_base_eval m s av ac pr ui c i a hgAV hgAC hgS hgPR hgUI hgC hgI hgA]
    at h
  exact ⟨_, (Except.ok.inj h).symm⟩

/-! Concrete inputs used by the claims. -/

/-- The reference vector of the spec whose published score is checked. -/
def c2str : List Char := ("CVSS:3.1/AV:N/AC:L/PR:N/UI:N/S:C/C:L/I:N/A:N").data

/-- The metric map `parse_vector` extracts from `c2str`. -/
def mC2 : Metrics :=
  [(kAV, ['N']), (kAC, ['L']), (kPR, ['N']), (kUI, ['N']),
   (kS, ['C']), (kC, ['L']), (kI, ['N']), (kA, ['N'])]

theorem parse_c2 : parse_vector c2str = Except.ok (k31, mC2) := by decide

/-- Exact value of the v3.1 engine on the `c2str` metrics: the pre-round
base is `1.08 * (impact + exploitability) ≈ 5.749`, rounded up to `5.8`. -/
theorem cvss31_mC2_value : cvss31_base mC2 = Except.ok (29 / 5) := by
  rw [cvss31_base_eval mC2 ['C'] 0.85 0.77 0.85 0.85 0.22 0.00 0.00
    rfl rfl rfl rfl rfl rfl rfl rfl]
  rw [if_neg (by norm_num [spec_impact, spec_iss, charCU])]
  rw [roundup_eq _ 58
    (by norm_num [spec_preRoundBase, spec_impact, spec_iss,
      spec_exploitability, min_def, charCU])
    (by norm_num [spec_preRoundBase, spec_impact, spec_iss,
      spec_exploitability, min_def, charCU])]
  norm_num

/-- Exact value of `compute_from_vector` on the reference string. -/
theorem compute_c2_value (p : Option (List Char → ℚ)) :
    compute_from_vector p c2str = Except.ok (29 / 5) := by
  rw [compute_dispatch p c2str k31 mC2 parse_c2,
    if_pos (show pyStartsWith k31 k31 = true from rfl)]
  exact cvss31_mC2_value

/-- The all-None v3.1 vector of the spec's reference list. -/
def zeroStr : List Char := ("CVSS:3.1/AV:N/AC:L/PR:N/UI:N/S:U/C:N/I:N/A:N").data

/-- The metric map `parse_vector` extracts from `zeroStr`. -/
def mZero : Metrics :=
  [(kAV, ['N']), (kAC, ['L']), (kPR, ['N']), (kUI, ['N']),
   (kS, ['U']), (kC, ['N']), (kI, ['N']), (kA, ['N'])]

theorem parse_zero : parse_vector zeroStr = Except.ok (k31, mZero) := by decide

/-! Validation analysis of the v3.1 engine: the exact relationship between
lookup failures and the error the source raises. -/

theorem v31Table_PR (m : Metrics) :
    v31Table m kPR = (if mget m kS = some ['C'] then V31_PR_C else V31_PR_U) := rfl

theorem v31Table_PR_scope (m : Metrics) (s : List Char) (hs : mget m kS = some s) :
    v31Table m kPR = (if s = ['C'] then V31_PR_C else V31_PR_U) := by
  rw [v31Table_PR, hs]
  simp only [Option.some.injEq]

theorem v31_err_missing (m : Metrics) (k : List Char) (hk : k ∈ v31Required)
    (hm : mget m k = none)
    (hres : cvss31_base m = Except.error (CvssErr.invalidMetric k)) :
    ((∃ q, cvss31_base m = Except.ok q) ↔ v31Valid m = true) ∧
    (∀ e, cvss31_base m = Except.error e →
      (∃ k', k' ∈ v31Required ∧ mget m k' = none ∧ e = CvssErr.invalidMetric k') ∨
      (∃ k' v, k' ∈ v31Weighted ∧ mget m k' = some v ∧
        tableGet (v31Table m k') v = none ∧ e = CvssErr.invalidMetric v)) := by
  constructor
  · constructor
    · rintro ⟨q, hq⟩
      rw [hres] at hq
      exact Except.noConfusion hq
    · intro hv
      exfalso
      simp only [v31Valid, Bool.and_eq_true, List.all_eq_true] at hv
      have := hv.1 k hk
      rw [hm] at this
      exact Bool.noConfusion this
  · intro e he
    rw [hres] at he
    exact Or.inl ⟨k, hk, hm, (Except.error.inj he).symm⟩

theorem v31_err_badval (m : Metrics) (k v : List Char) (hk : k ∈ v31Weighted)
    (hm : mget m k = some v) (ht : tableGet (v31Table m k) v = none)
    (hres : cvss31_base m = Except.error (CvssErr.invalidMetric v)) :
    ((∃ q, cvss31_base m = Except.ok q) ↔ v31Valid m = true) ∧
    (∀ e, cvss31_base m = Except.error e →
      (∃ k', k' ∈ v31Required ∧ mget m k' = none ∧ e = CvssErr.invalidMetric k') ∨
      (∃ k' v', k' ∈ v31Weighted ∧ mget m k' = some v' ∧
        tableGet (v31Table m k') v' = none ∧ e = CvssErr.invalidMetric v')) := by
  constructor
  · constructor
    · rintro ⟨q, hq⟩
      rw [hres] at hq
      exact Except.noConfusion hq
    · intro hv
      exfalso
      simp only [v31Valid, Bool.and_eq_true, List.all_eq_true] at hv
      have h2 := hv.2 k hk
      simp only [valueOk, hm, ht, Option.isSome_none] at h2
      exact Bool.noConfusion h2
  · intro e he
    rw [hres] at he
    exact Or.inr ⟨k, v, hk, hm, ht, (Except.error.inj he).symm⟩

theorem v31_ok_case (m : Metrics) (s : List Char) (av ac pr ui c i a : ℚ)
    (hav : getW V31_AV m kAV = Except.ok av)
    (hac : getW V31_AC m kAC = Except.ok ac)
    (hs : mget m kS = some s)
    (hpr : getW (if s = ['C'] then V31_PR_C else V31_PR_U) m kPR = Except.ok pr)
    (hui : getW V31_UI m kUI = Except.ok ui)
    (hc : getW V31_CIA m kC = Except.ok c)
    (hi : getW V31_CIA m kI = Except.ok i)
    (ha : getW V31_CIA m kA = Except.ok a) :
    ((∃ q, cvss31_base m = Except.ok q) ↔ v31Valid m = true) ∧
    (∀ e, cvss31_base m = Except.error e →
      (∃ k', k' ∈ v31Required ∧ mget m k' = none ∧ e = CvssErr.invalidMetric k') ∨
      (∃ k' v', k' ∈ v31Weighted ∧ mget m k' = some v' ∧
        tableGet (v31Table m k') v' = none ∧ e = CvssErr.invalidMetric v')) := by
  have hres := cvss31_base_eval m s av ac pr ui c i a hav hac hs hpr hui hc hi ha
  obtain ⟨vAV, hmAV, htAV⟩ := getW_ok_elim _ _ _ _ hav
  obtain ⟨vAC, hmAC, htAC⟩ := getW_ok_elim _ _ _ _ hac
  obtain ⟨vPR, hmPR, htPR⟩ := getW_ok_elim _ _ _ _ hpr
  obtain ⟨vUI, hmUI, htUI⟩ := getW_ok_elim _ _ _ _ hui
  obtain ⟨vC, hmC, htC⟩ := getW_ok_elim _ _ _ _ hc
  obtain ⟨vI, hmI, htI⟩ := getW_ok_elim _ _ _ _ hi
  obtain ⟨vA, hmA, htA⟩ := getW_ok_elim _ _ _ _ ha
  have hvalid : v31Valid m = true := by
    simp only [v31Valid, Bool.and_eq_true, List.all_eq_true]
    constructor
    · intro k hk
      simp only [v31Required, List.mem_cons, List.not_mem_nil, or_false] at hk
      rcases hk with rfl | rfl | rfl | rfl | rfl | rfl | rfl | rfl
      · rw [hmAV]; rfl
      · rw [hmAC]; rfl
      · rw [hmPR]; rfl
      · rw [hmUI]; rfl
      · rw [hs]; rfl
      · rw [hmC]; rfl
      · rw [hmI]; rfl
      · rw [hmA]; rfl
    · intro k hk
      simp only [v31Weighted, List.mem_cons, List.not_mem_nil, or_false] at hk
      rcases hk with rfl | rfl | rfl | rfl | rfl | rfl | rfl
      · simp only [valueOk, hmAV]
        rw [show v31Table m kAV = V31_AV from rfl, htAV]; rfl
      · simp only [valueOk, hmAC]
        rw [show v31Table m kAC = V31_AC from rfl, htAC]; rfl
      · simp only [valueOk, hmPR]
        rw [v31Table_PR_scope m s hs, htPR]; rfl
      · simp only [valueOk, hmUI]
        rw [show v31Table m kUI = V31_UI from rfl, htUI]; rfl
      · simp only [valueOk, hmC]
        rw [show v31Table m kC = V31_CIA from rfl, htC]; rfl
      · simp only [valueOk, hmI]
        rw [show v31Table m kI = V31_CIA from rfl, htI]; rfl
      · simp only [valueOk, hmA]
        rw [show v31Table m kA = V31_CIA from rfl, htA]; rfl
  refine ⟨⟨fun _ => hvalid, fun _ => ⟨_, hres⟩⟩, fun e he => ?_⟩
  rw [hres] at he
  exact Except.noConfusion he

theorem v31_validation_master (m : Metrics) :
    ((∃ q, cvss31_base m = Except.ok q) ↔ v31Valid m = true) ∧
    (∀ e, cvss31_base m = Except.error e →
      (∃ k', k' ∈ v31Required ∧ mget m k' = none ∧ e = CvssErr.invalidMetric k') ∨
      (∃ k' v', k' ∈ v31Weighted ∧ mget m k' = some v' ∧
        tableGet (v31Table m k') v' = none ∧ e = CvssErr.invalidMetric v')) := by
  rcases getW_cases V31_AV m kAV with ⟨vAV, wAV, hmAV, htAV, hgAV⟩ |
    ⟨hmAV, hgAV⟩ | ⟨vAV, hmAV, htAV, hgAV⟩
  · rcases getW_cases V31_AC m kAC with ⟨vAC, wAC, hmAC, htAC, hgAC⟩ |
      ⟨hmAC, hgAC⟩ | ⟨vAC, hmAC, htAC, hgAC⟩
    · rcases hgS : mget m kS with _ | s
      · exact v31_err_missing m kS (by decide) hgS
          (by simp only [cvss31_base, hgAV, hgAC, hgS])
      · rcases getW_cases (if s = ['C'] then V31_PR_C else V31_PR_U) m kPR with
          ⟨vPR, wPR, hmPR, htPR, hgPR⟩ | ⟨hmPR, hgPR⟩ | ⟨vPR, hmPR, htPR, hgPR⟩
        · rcases getW_cases V31_UI m kUI with ⟨vUI, wUI, hmUI, htUI, hgUI⟩ |
            ⟨hmUI, hgUI⟩ | ⟨vUI, hmUI, htUI, hgUI⟩
          · rcases getW_cases V31_CIA m kC with ⟨vC, wC, hmC, htC, hgC⟩ |
              ⟨hmC, hgC⟩ | ⟨vC, hmC, htC, hgC⟩
            · rcases getW_cases V31_CIA m kI with ⟨vI, wI, hmI, htI, hgI⟩ |
                ⟨hmI, hgI⟩ | ⟨vI, hmI, htI, hgI⟩
              · rcases getW_cases V31_CIA m kA with ⟨vA, wA, hmA, htA, hgA⟩ |
                  ⟨hmA, hgA⟩ | ⟨vA, hmA, htA, hgA⟩
                · exact v31_ok_case m s wAV wAC wPR wUI wC wI wA
                    hgAV hgAC hgS hgPR hgUI hgC hgI hgA
                · exact v31_err_missing m kA (by decide) hmA
                    (by simp only [cvss31_base, hgAV, hgAC, hgS, hgPR, hgUI,
                      hgC, hgI, hgA])
                · exact v31_err_badval m kA vA (by decide) hmA htA
                    (by simp only [cvss31_base, hgAV, hgAC, hgS, hgPR, hgUI,
                      hgC, hgI, hgA])
              · exact v31_err_missing m kI (by decide) hmI
                  (by simp only [cvss31_base, hgAV, hgAC, hgS, hgPR, hgUI,
                    hgC, hgI])
              · exact v31_err_badval m kI vI (by decide) hmI htI
                  (by simp only [cvss31_base, hgAV, hgAC, hgS, hgPR, hgUI,
                    hgC, hgI])
            · exact v31_err_missing m kC (by decide) hmC
                (by simp only [cvss31_base, hgAV, hgAC, hgS, hgPR, hgUI, hgC])
            · exact v31_err_badval m kC vC (by decide) hmC htC
                (by simp only [cvss31_base, hgAV, hgAC, hgS, hgPR, hgUI, hgC])
          · exact v31_err_missing m kUI (by decide) hmUI
              (by simp only [cvss31_base, hgAV, hgAC, hgS, hgPR, hgUI])
          · exact v31_err_badval m kUI vUI (by decide) hmUI htUI
              (by simp only [cvss31_base, hgAV, hgAC, hgS, hgPR, hgUI])
        · exact v31_err_missing m kPR (by decide) hmPR
            (by simp only [cvss31_base, hgAV, hgAC, hgS, hgPR])
        · exact v31_err_badval m kPR vPR (by decide) hmPR
            (by rw [v31Table_PR_scope m s hgS]; exact htPR)
            (by simp only [cvss31_base, hgAV, hgAC, hgS, hgPR])
    · exact v31_err_missing m kAC (by decide) hmAC
        (by simp only [cvss31_base, hgAV, hgAC])
    · exact v31_err_badval m kAC vAC (by decide) hmAC htAC
        (by simp only [cvss31_base, hgAV, hgAC])
  · exact v31_err_missing m kAV (by decide) hmAV
      (by simp only [cvss31_base, hgAV])
  · exact v31_err_badval m kAV vAV (by decide) hmAV htAV
      (by simp only [cvss31_base, hgAV])

/-! The claims. -/

/-- C1: for every metric map containing recognized values for the 8
required v3.1 keys (AV, AC, PR, UI, S, C, I, A — the weight lookups
succeed, Scope is `U` or `C`, the PR weight drawn from the changed-scope
table exactly when `S = C`), and whose impact is positive, `cvss31_base`
returns the round-up of the exact piecewise v3.1 formula:
`iss = 1-(1-c)(1-i)(1-a)`, `impact = 6.42*iss` for `S:U` and
`7.52*(iss-0.029)-3.25*(iss-0.02)^15` for `S:C`,
`exploitability = 8.22*av*ac*pr*ui`, and pre-round base
`min(impact+exploitability, 10)` resp. `min(1.08*(impact+exploitability), 10)`
(arithmetic modelled exactly over `ℚ`). -/
theorem cvss31_matches_spec_formula (m : Metrics) (s : List Char)
    (av ac pr ui c i a : ℚ)
    (hav : getW V31_AV m kAV = Except.ok av)
    (hac : getW V31_AC m kAC = Except.ok ac)
    (hs : mget m kS = some s)
    (hpr : getW (if s = ['C'] then V31_PR_C else V31_PR_U) m kPR = Except.ok pr)
    (hui : getW V31_UI m kUI = Except.ok ui)
    (hc : getW V31_CIA m kC = Except.ok c)
    (hi : getW V31_CIA m kI = Except.ok i)
    (ha : getW V31_CIA m kA = Except.ok a)
    (hsv : s = ['U'] ∨ s = ['C'])
    (hpos : 0 < spec_impact s (spec_iss c i a)) :
    cvss31_base m = Except.ok (roundup_1_dec
      (spec_preRoundBase s (spec_impact s (spec_iss c i a))
        (spec_exploitability av ac pr ui))) := by
  rw [cvss31_base_eval m s av ac pr ui c i a hav hac hs hpr hui hc hi ha,
    if_neg (not_le.mpr hpos)]

/-- Witness for C1 at the parsed metrics of the spec's reference vector. -/
theorem cvss31_matches_spec_formula_witness :
    cvss31_base mC2 = Except.ok (roundup_1_dec
      (spec_preRoundBase ['C'] (spec_impact ['C'] (spec_iss 0.22 0.00 0.00))
        (spec_exploitability 0.85 0.77 0.85 0.85))) :=
  cvss31_matches_spec_formula mC2 ['C'] 0.85 0.77 0.85 0.85 0.22 0.00 0.00
    rfl rfl rfl rfl rfl rfl rfl rfl (Or.inr rfl)
    (by norm_num [spec_impact, spec_iss, charCU])

/-- C2 counterexample: on the exact string
`CVSS:3.1/AV:N/AC:L/PR:N/UI:N/S:C/C:L/I:N/A:N` the program does NOT
return 5.3. -/
theorem c2_score_not_five_three :
    compute_from_vector none c2str ≠ Except.ok (53 / 10) := by
  rw [compute_c2_value none]
  intro h
  have h' := Except.ok.inj h
  norm_num at h'

/-- C2 amended: on that exact string the program returns exactly 5.8 (the
pre-round base is `1.08 * (impact + exploitability) ≈ 5.7492`, rounded up). -/
theorem c2_reference_score :
    compute_from_vector none c2str = Except.ok (29 / 5) :=
  compute_c2_value none

/-- C5: the v3.1 score is produced by the single rounding function
`ceil(x*10)/10`; `7.341` rounds to `7.4`, an exact `7.300` stays `7.3`,
and every successful score is the round-up of some pre-round base
(arithmetic modelled exactly over `ℚ`). -/
theorem roundup_law :
    (∀ x : ℚ, roundup_1_dec x = (Int.ceil (x * 10) : ℚ) / 10) ∧
    roundup_1_dec 7.341 = 7.4 ∧
    roundup_1_dec 7.3 = 7.3 ∧
    (∀ (m : Metrics) (q : ℚ), cvss31_base m = Except.ok q →
      ∃ x, q = roundup_1_dec x) := by
  refine ⟨fun x => rfl, ?_, ?_, cvss31_ok_shape⟩
  · rw [roundup_eq _ 74 (by norm_num) (by norm_num)]; norm_num
  · rw [roundup_eq _ 73 (by norm_num) (by norm_num)]; norm_num

/-- Witness for C5: the computed reference score 5.8 is a round-up. -/
theorem roundup_law_witness : ∃ x, (29 / 5 : ℚ) = roundup_1_dec x :=
  roundup_law.2.2.2 mC2 (29 / 5) cvss31_mC2_value

/-- C6: for every valid v3.1 metric map whose computed impact is
non-positive, `cvss31_base` returns exactly `0.0`, whatever the
exploitability. -/
theorem cvss31_zero_impact (m : Metrics) (s : List Char)
    (av ac pr ui c i a : ℚ)
    (hav : getW V31_AV m kAV = Except.ok av)
    (hac : getW V31_AC m kAC = Except.ok ac)
    (hs : mget m kS = some s)
    (hpr : getW (if s = ['C'] then V31_PR_C else V31_PR_U) m kPR = Except.ok pr)
    (hui : getW V31_UI m kUI = Except.ok ui)
    (hc : getW V31_CIA m kC = Except.ok c)
    (hi : getW V31_CIA m kI = Except.ok i)
    (ha : getW V31_CIA m kA = Except.ok a)
    (hsv : s = ['U'] ∨ s = ['C'])
    (hz : spec_impact s (spec_iss c i a) ≤ 0) :
    cvss31_base m = Except.ok 0 :=
  cvss31_zero m s av ac pr ui c i a hav hac hs hpr hui hc hi ha hz

/-- Witness for C6: the claim's example
`computeScore("CVSS:3.1/AV:N/AC:L/PR:N/UI:N/S:U/C:N/I:N/A:N") = 0.0`. -/
theorem cvss31_zero_impact_witness :
    compute_from_vector none zeroStr = Except.ok 0 := by
  rw [compute_dispatch none zeroStr k31 mZero parse_zero,
    if_pos (show pyStartsWith k31 k31 = true from rfl)]
  exact cvss31_zero_impact mZero ['U'] 0.85 0.77 0.85 0.85 0.00 0.00 0.00
    rfl rfl rfl rfl rfl rfl rfl rfl (Or.inl rfl)
    (by norm_num [spec_impact, spec_iss])

/-- A v4.0 metric map with every required Base key except `SA`. -/
def m40NoSA : Metrics :=
  [(['A','V'], ['N']), (['A','C'], ['L']), (['A','T'], ['N']),
   (['P','R'], ['N']), (['U','I'], ['N']), (['V','C'], ['H']),
   (['V','I'], ['H']), (['V','A'], ['H']), (['S','C'], ['N']),
   (['S','I'], ['N'])]

/-- C3 counterexample: when the provider capability is unavailable, a
v4.0 map missing `SA` fails with `ProviderUnavailable` — the import is
attempted BEFORE the missing-metrics validation, so the `MissingMetrics`
failure the claim promises does not occur. -/
theorem cvss40_missing_key_counterexample :
    cvss40_base none m40NoSA = Except.error CvssErr.providerUnavailable ∧
    cvss40_base none m40NoSA ≠
      Except.error (CvssErr.missingMetrics [['S','A']]) ∧
    mget m40NoSA ['S','A'] = none :=
  ⟨rfl, by decide, by decide⟩

/-- C3 amended: `cvss40_base` validates the 11 required keys only after
the provider import: with the provider available, a map with missing
keys fails with `MissingMetrics` listing every absent key in canonical
order, without invoking the provider; with the provider unavailable the
failure is `ProviderUnavailable` whatever the metrics. -/
theorem cvss40_validation :
    (∀ (f : List Char → ℚ) (m : Metrics),
      required40.filter (fun k => (mget m k).isNone) ≠ [] →
      cvss40_base (some f) m =
        Except.error (CvssErr.missingMetrics
          (required40.filter (fun k => (mget m k).isNone)))) ∧
    (∀ m : Metrics,
      cvss40_base none m = Except.error CvssErr.providerUnavailable) := by
  constructor
  · intro f m hne
    simp only [cvss40_base]
    rw [if_neg hne]
  · intro m
    rfl

/-- Witness for C3's amended theorem: with a provider present, the map
missing `SA` fails with `MissingMetrics` naming exactly `SA`. -/
theorem cvss40_validation_witness :
    cvss40_base (some (fun _ => 0)) m40NoSA =
      Except.error (CvssErr.missingMetrics [['S','A']]) := by
  rw [cvss40_validation.1 (fun _ => 0) m40NoSA (by decide)]
  decide

/-- A v3.1 metric map whose `AV` value `X` is in no weight table. -/
def mBadAV : Metrics :=
  [(kAV, ['X']), (kAC, ['L']), (kPR, ['N']), (kUI, ['N']),
   (kS, ['U']), (kC, ['N']), (kI, ['N']), (kA, ['N'])]

/-- C4 counterexample: on a map whose `AV` has the unrecognized value
`X`, the error names the value token `X`, not the offending metric
abbreviation `AV` as the claim states. -/
theorem cvss31_error_names_value_counterexample :
    cvss31_base mBadAV = Except.error (CvssErr.invalidMetric ['X']) ∧
    cvss31_base mBadAV ≠ Except.error (CvssErr.invalidMetric kAV) :=
  ⟨by decide, by decide⟩

/-- C4 amended: `cvss31_base` succeeds exactly when all 8 required keys
are present and the 7 weighted keys carry values found in their tables
(an unrecognized Scope value is NOT rejected); every failure is an
`InvalidMetric` error naming either an absent required key or the
unrecognized value token of a present weighted key — never a silent
default or partial score. -/
theorem cvss31_validation (m : Metrics) :
    ((∃ q, cvss31_base m = Except.ok q) ↔ v31Valid m = true) ∧
    (∀ e, cvss31_base m = Except.error e →
      (∃ k', k' ∈ v31Required ∧ mget m k' = none ∧
        e = CvssErr.invalidMetric k') ∨
      (∃ k' v', k' ∈ v31Weighted ∧ mget m k' = some v' ∧
        tableGet (v31Table m k') v' = none ∧
        e = CvssErr.invalidMetric v')) :=
  v31_validation_master m

/-- Witness for C4's amended theorem: the reference map passes the full
validation predicate because the engine scores it. -/
theorem cvss31_validation_witness : v31Valid mC2 = true :=
  (cvss31_validation mC2).1.mp ⟨29 / 5, cvss31_mC2_value⟩

/-- The duplicate-key vector of the claim. -/
def dupStr : List Char :=
  ("CVSS:3.1/AV:N/AV:A/AC:L/PR:N/UI:N/S:U/C:N/I:N/A:N").data

/-- The segment list `parse_vector` extracts from `dupStr`: both `AV`
occurrences are kept in order, and lookup resolves to the last. -/
def mDup : Metrics :=
  [(kAV, ['N']), (kAV, ['A']), (kAC, ['L']), (kPR, ['N']), (kUI, ['N']),
   (kS, ['U']), (kC, ['N']), (kI, ['N']), (kA, ['N'])]

theorem parse_dup : parse_vector dupStr = Except.ok (k31, mDup) := by decide

/-- C7: dictionary lookup on the parsed segments is last-write-wins — a
later occurrence of a key overwrites an earlier one and unrelated keys
are untouched — and on the claim's duplicate-`AV` vector the parse maps
`AV` to its last occurrence `A` and scoring proceeds (to `0.0`, since
`C:N/I:N/A:N` gives zero impact). -/
theorem parse_last_write_wins :
    (∀ (m : Metrics) (k v : List Char), mget (m ++ [(k, v)]) k = some v) ∧
    (∀ (m : Metrics) (k k' v : List Char), k' ≠ k →
      mget (m ++ [(k', v)]) k = mget m k) ∧
    parse_vector dupStr = Except.ok (k31, mDup) ∧
    mget mDup kAV = some ['A'] ∧
    compute_from_vector none dupStr = Except.ok 0 := by
  refine ⟨?_, ?_, parse_dup, by decide, ?_⟩
  · intro m k v
    simp [mget, List.reverse_append]
  · intro m k k' v h
    simp [mget, List.reverse_append, List.find?_cons, h]
  · rw [compute_dispatch none dupStr k31 mDup parse_dup,
      if_pos (show pyStartsWith k31 k31 = true from rfl)]
    exact cvss31_zero mDup ['U'] 0.62 0.77 0.85 0.85 0.00 0.00 0.00
      rfl rfl rfl rfl rfl rfl rfl rfl
      (by norm_num [spec_impact, spec_iss])

/-- Witness for C7: last-write-wins applied at concrete maps. -/
theorem parse_last_write_wins_witness :
    mget ([(kAV, ['N'])] ++ [(kAV, ['A'])]) kAV = some ['A'] ∧
    mget ([(kAV, ['N'])] ++ [(kAC, ['L'])]) kAV = mget [(kAV, ['N'])] kAV :=
  ⟨parse_last_write_wins.1 [(kAV, ['N'])] kAV ['A'],
   parse_last_write_wins.2.1 [(kAV, ['N'])] kAV kAC ['L'] (by decide)⟩

/-- C8: after a successful parse, `compute_from_vector` routes by version
prefix — `3.1*` to the v3.1 engine, otherwise `4*` to the v4.0 path, and
anything else (in particular version `2.0`) to `UnsupportedVersion`. -/
theorem compute_routes_by_version (p : Option (List Char → ℚ))
    (s ver : List Char) (m : Metrics)
    (hp : parse_vector s = Except.ok (ver, m)) :
    (pyStartsWith k31 ver = true → compute_from_vector p s = cvss31_base m) ∧
    (pyStartsWith k31 ver = false → pyStartsWith k4 ver = true →
      compute_from_vector p s = cvss40_base p m) ∧
    (pyStartsWith k31 ver = false → pyStartsWith k4 ver = false →
      compute_from_vector p s =
        Except.error (CvssErr.unsupportedVersion ver)) ∧
    (ver = ['2', '.', '0'] →
      compute_from_vector p s =
        Except.error (CvssErr.unsupportedVersion ver)) := by
  rw [compute_dispatch p s ver m hp]
  refine ⟨fun h31 => ?_, fun h31 h4 => ?_, fun h31 h4 => ?_, fun h20 => ?_⟩
  · rw [if_pos h31]
  · simp [h31, h4]
  · simp [h31, h4]
  · subst h20
    rw [if_neg (by decide), if_neg (by decide)]

/-- Witness for C8: a `CVSS:2.0` vector fails with `UnsupportedVersion`. -/
theorem compute_routes_by_version_witness :
    compute_from_vector none (("CVSS:2.0/AV:N").data) =
      Except.error (CvssErr.unsupportedVersion ['2', '.', '0']) :=
  (compute_routes_by_version none (("CVSS:2.0/AV:N").data) ['2', '.', '0']
    [(kAV, ['N'])] (by decide)).2.2.2 rfl

/-- C9: when the trimmed input starts with `CVSS:` but the `[0-9.]` run
after it — even a non-empty one — is not immediately followed by `/`,
`parse_vector` fails with the missing-version error. -/
theorem parse_requires_terminated_version (s : List Char)
    (hstart : pyStartsWith kCVSS (pyStrip s) = true)
    (hrun : ((pyStrip s).drop 5).takeWhile isVerChar ≠ [])
    (hslash : (((pyStrip s).drop 5).dropWhile isVerChar).head? ≠ some '/') :
    parse_vector s = Except.error CvssErr.missingVersion := by
  simp only [parse_vector]
  rw [if_pos hstart, if_pos (Or.inr hslash)]

/-- Witness for C9: the slash-free input `CVSS:3.1` has a non-empty
version run yet fails with the missing-version error. -/
theorem parse_requires_terminated_version_witness :
    parse_vector (("CVSS:3.1").data) = Except.error CvssErr.missingVersion :=
  parse_requires_terminated_version (("CVSS:3.1").data)
    (by decide) (by decide) (by decide)

/-- C10: any two metric maps agreeing on the 8 required v3.1 keys score
identically — extra keys (e.g. Temporal metrics kept by the permissive
parser) are never an error and never influence the score. -/
theorem cvss31_depends_only_on_required (m1 m2 : Metrics)
    (h : ∀ k, k ∈ v31Required → mget m1 k = mget m2 k) :
    cvss31_base m1 = cvss31_base m2 := by
  have hAV : getW V31_AV m1 kAV = getW V31_AV m2 kAV := by
    unfold getW; rw [h kAV (by decide)]
  have hAC : getW V31_AC m1 kAC = getW V31_AC m2 kAC := by
    unfold getW; rw [h kAC (by decide)]
  have hPR : ∀ tab, getW tab m1 kPR = getW tab m2 kPR := fun tab => by
    unfold getW; rw [h kPR (by decide)]
  have hUI : getW V31_UI m1 kUI = getW V31_UI m2 kUI := by
    unfold getW; rw [h kUI (by decide)]
  have hC : getW V31_CIA m1 kC = getW V31_CIA m2 kC := by
    unfold getW; rw [h kC (by decide)]
  have hI : getW V31_CIA m1 kI = getW V31_CIA m2 kI := by
    unfold getW; rw [h kI (by decide)]
  have hA : getW V31_CIA m1 kA = getW V31_CIA m2 kA := by
    unfold getW; rw [h kA (by decide)]
  have hS : mget m1 kS = mget m2 kS := h kS (by decide)
  simp only [cvss31_base, hAV, hAC, hS, hPR, hUI, hC, hI, hA]

/-- Witness for C10: appending an extra (Temporal-style) key `E:H` to the
all-None map leaves the score unchanged. -/
theorem cvss31_depends_only_on_required_witness :
    cvss31_base mZero = cvss31_base (mZero ++ [(['E'], ['H'])]) :=
  cvss31_depends_only_on_required mZero (mZero ++ [(['E'], ['H'])]) (by decide)

end Cvss
